import Mathlib

/-!
# Verification of the colorful genealogy renderer

Shallow embedding of `src/colorful-renderer.ts` (class `ColorfulRenderer`).
Pixel sizes are natural numbers, raw layout offsets are integers.  JavaScript
truthiness of optional strings/objects is modelled explicitly.  External
collaborators of the renderer (the data provider, the text-measurement
function `getLength` from `detailed-renderer.ts`, the locale-aware
`formatDate` from `date-format.ts`, and the family-position functions
`getFamPositionVertical` / `getFamPositionHorizontal` from
`composite-renderer.ts`) are taken as parameters, so every theorem below
quantifies over their behaviour.
-/

namespace Topola

/-! ## Data model (shapes of `data.ts` / `api.ts`, which sit outside the
rendered core; modelled from the spec's §3 data model: dates are an exact
date or a from/to range, every field optional). -/

/-- A calendar date; only the year is consumed by this renderer.
The year is optional, as in the source data model. -/
structure GDate where
  year : Option Int
deriving DecidableEq, Repr, Inhabited

/-- A date range with optional endpoints. -/
structure GDateRange where
  fromDate : Option GDate
  toDate : Option GDate
deriving DecidableEq, Repr, Inhabited

/-- Either an exact date or a date range (both optional, as in the source). -/
structure DateOrRange where
  date : Option GDate
  dateRange : Option GDateRange
deriving DecidableEq, Repr, Inhabited

/-- Detail record for an individual (accessor interface `IndiDetails`). -/
structure IndiDetails where
  firstName : Option String := none
  lastName : Option String := none
  sex : Option String := none
  birthDate : Option DateOrRange := none
  deathDate : Option DateOrRange := none
  birthPlace : Option String := none
  deathPlace : Option String := none
  imageUrl : Option String := none
deriving DecidableEq, Repr, Inhabited

/-- Detail record for a family (accessor interface `FamDetails`). -/
structure FamDetails where
  marriageDate : Option DateOrRange := none
  marriagePlace : Option String := none
deriving DecidableEq, Repr, Inhabited

/-- A sized entry of a layout node (`TreeEntry` of `api.ts`):
an id plus width/height filled in by the size estimator. -/
structure TreeEntry where
  id : String
  width : Option Nat := none
  height : Option Nat := none
deriving DecidableEq, Repr, Inhabited

/-- A layout node (`TreeNode` of `api.ts`), restricted to the fields the
renderer reads. -/
structure TreeNode where
  id : String
  indi : Option TreeEntry := none
  spouse : Option TreeEntry := none
  family : Option TreeEntry := none
  generation : Option Int := none
deriving DecidableEq, Repr, Inhabited

/-- The data provider (`options.data`): resolves ids to detail records. -/
structure DataProvider where
  getIndi : String → Option IndiDetails
  getFam : String → Option FamDetails

/-- `RendererOptions`, with the external pure functions inlined:
`formatDate` already carries the locale, `getLength` is the injected
text-measurement function keyed by a style class. -/
structure RendererOptions where
  data : DataProvider
  horizontal : Bool := false
  animate : Bool := false
  formatDate : GDate → String := fun _ => ""
  getLength : String → String → Nat := fun _ _ => 0
  indiHrefFunc : Option (String → String) := none
  famHrefFunc : Option (String → String) := none
  indiCallback : Bool := false
  famCallback : Bool := false

/-! ## Constants (lines 19-33 of the source) -/

def INDI_MIN_HEIGHT : Nat := 43
def INDI_MIN_WIDTH : Nat := 64
def FAM_MIN_HEIGHT : Nat := 10
def FAM_MIN_WIDTH : Nat := 15
def IMAGE_WIDTH : Nat := 70
/-- Minimum box height when an image is present. -/
def IMAGE_HEIGHT : Nat := 90

def ANIMATION_DELAY_MS : Nat := 200
def ANIMATION_DURATION_MS : Nat := 500

/-- `SEX_COLORS` map (source lines 30-33). -/
def SEX_COLORS : List (String × String) :=
  [("F", "#fcb7bd"), ("M", "#b1e2e2")]

/-- `SEX_COLORS.get`: `none` stands for JavaScript `undefined`. -/
def sexColorsGet (s : String) : Option String :=
  (SEX_COLORS.find? (fun p => p.1 == s)).map (fun p => p.2)

/-- A rendered details line (`DetailsLine` interface, lines 35-39). -/
structure DetailsLine where
  symbol : String
  centered : Bool
  text : String
deriving DecidableEq, Repr, Inhabited

/-! ## JavaScript-truthiness helpers -/

/-- Truthiness of an optional string: absent and `""` are falsy. -/
def jsTruthyStr : Option String → Bool
  | some s => s != ""
  | none => false

/-- Truthiness of `d && (d.date || d.dateRange)` for an optional
`DateOrRange` (the source's validity test, lines 62-63). -/
def jsTruthyDate : Option DateOrRange → Bool
  | some d => d.date.isSome || d.dateRange.isSome
  | none => false

/-- JavaScript string conversion of a possibly-undefined number
(string concatenation renders `undefined` as `"undefined"`). -/
def jsNumStr : Option Int → String
  | some v => toString v
  | none => "undefined"

/-- `d3.max` over a list of numbers: `none` on the empty list
(d3 skips undefined/NaN inputs, so callers drop absent candidates
before calling it). -/
def d3max : List Nat → Option Nat
  | [] => none
  | x :: xs =>
    some (match d3max xs with
          | some m => max x m
          | none => x)

/-! ## Details extraction (`getIndiDetails`, source lines 57-98) -/

/-- Translation of `ColorfulRenderer.getIndiDetails`.  The lifespan string
is built exactly as the source's successive `+=` mutations do.  On the
paths where the source dereferences a missing `from`/`to` endpoint with a
non-null assertion (where the JavaScript would throw), the Lean default
endpoint (year absent) stands in. -/
def getIndiDetails (indi : IndiDetails) : List DetailsLine :=
  let birthDate := indi.birthDate
  let deathDate := indi.deathDate
  let isValidBirthDate := jsTruthyDate birthDate
  let isValidDeathDate := jsTruthyDate deathDate
  let lifespanList : List DetailsLine :=
    if isValidBirthDate || isValidDeathDate then
      let s1 : String :=
        if isValidBirthDate then
          match (birthDate.getD default).date with
          | some d => jsNumStr d.year
          | none =>
            jsNumStr
              ((((birthDate.getD default).dateRange.getD default).fromDate.getD
                default).year)
        else "?"
      let s2 : String := s1 ++ " - "
      let s3 : String :=
        if isValidDeathDate then
          s2 ++
            (match (deathDate.getD default).date with
             | some d => jsNumStr d.year
             | none =>
               jsNumStr
                 ((((deathDate.getD default).dateRange.getD default).toDate.getD
                   default).year))
        else s2
      [{ symbol := "", centered := true, text := s3 }]
    else []
  let placeList : List DetailsLine :=
    if jsTruthyStr indi.birthPlace then
      [{ symbol := "", centered := true, text := indi.birthPlace.getD "" }]
    else if jsTruthyStr indi.deathPlace then
      [{ symbol := "", centered := true, text := indi.deathPlace.getD "" }]
    else []
  lifespanList ++ placeList

/-! ## Details extraction (`getFamDetails`, source lines 101-118) -/

/-- Truthiness of the source's `marriageDate` local: the marriage date is
present, has an exact `date` part, and formats to a nonempty string. -/
def famDateTruthy (opts : RendererOptions) (fam : FamDetails) : Bool :=
  match fam.marriageDate with
  | some dr =>
    match dr.date with
    | some d => opts.formatDate d != ""
    | none => false
  | none => false

/-- Truthiness of the marriage place. -/
def famPlaceTruthy (fam : FamDetails) : Bool :=
  jsTruthyStr fam.marriagePlace

/-- Translation of `ColorfulRenderer.getFamDetails`: a date line (the
formatted exact marriage date) when truthy, then a place line when truthy;
if either was pushed, the first line's symbol becomes the union glyph. -/
def getFamDetails (opts : RendererOptions) (fam : FamDetails) : List DetailsLine :=
  let dateText : String :=
    match fam.marriageDate with
    | some dr =>
      match dr.date with
      | some d => opts.formatDate d
      | none => ""
    | none => ""
  let l1 : List DetailsLine :=
    if famDateTruthy opts fam then
      [{ symbol := "", centered := false, text := dateText }]
    else []
  let l2 : List DetailsLine :=
    if famPlaceTruthy fam then
      [{ symbol := "", centered := false, text := fam.marriagePlace.getD "" }]
    else []
  let detailsList := l1 ++ l2
  if famDateTruthy opts fam || famPlaceTruthy fam then
    match detailsList with
    | x :: rest => { x with symbol := "⚭" } :: rest
    | [] => []
  else detailsList

/-! ## Preferred sizes (source lines 120-152) -/

/-- Translation of `ColorfulRenderer.getPreferredIndiSize`.  The source's
`d3.max([maxDetailsWidth + 22, ...])` sees `NaN` for the first candidate
when the details list is empty (`d3.max` of an empty list is undefined);
d3 skips that candidate, which the explicit empty-list drop models. -/
def getPreferredIndiSize (opts : RendererOptions) (id : String) : Nat × Nat :=
  let indi := (opts.data.getIndi id).getD default
  let details := getIndiDetails indi
  let height :=
    max (INDI_MIN_HEIGHT + details.length * 14)
      (if jsTruthyStr indi.imageUrl then IMAGE_HEIGHT else 0)
  let maxDetailsWidth :=
    d3max (details.map (fun x => opts.getLength x.text "details"))
  let widthCandidates : List Nat :=
    (match maxDetailsWidth with
     | some w => [w + 22]
     | none => []) ++
    [opts.getLength (indi.firstName.getD "") "name" + 8,
     opts.getLength (indi.lastName.getD "") "name" + 8,
     INDI_MIN_WIDTH]
  let width :=
    (d3max widthCandidates).getD 0 +
      (if jsTruthyStr indi.imageUrl then IMAGE_WIDTH else 0)
  (width, height)

/-- Translation of `ColorfulRenderer.getPreferredFamSize` (same
empty-details treatment of `d3.max` as above). -/
def getPreferredFamSize (opts : RendererOptions) (id : String) : Nat × Nat :=
  let fam := (opts.data.getFam id).getD default
  let details := getFamDetails opts fam
  let height := max (10 + details.length * 14) FAM_MIN_HEIGHT
  let maxDetailsWidth :=
    d3max (details.map (fun x => opts.getLength x.text "details"))
  let widthCandidates : List Nat :=
    (match maxDetailsWidth with
     | some w => [w + 22]
     | none => []) ++ [FAM_MIN_WIDTH]
  let width := (d3max widthCandidates).getD 0
  (width, height)

/-! ## Per-person offsets (the data callback of `render`, source lines 162-195) -/

/-- One per-person record produced by the data callback
(`OffsetIndi` interface, lines 41-46). -/
structure OffsetIndi where
  indi : TreeEntry
  generation : Int
  xOffset : Int
  yOffset : Int
deriving DecidableEq, Repr, Inhabited

/-- The expansion of a layout node into 0-2 per-person records performed by
the data callback inside `ColorfulRenderer.render` (lines 162-195).
`fv`/`fh` stand for `getFamPositionVertical`/`getFamPositionHorizontal`
from `composite-renderer.ts`, external to the rendered core. -/
def indiOffsets (horizontal : Bool) (fv fh : TreeNode → Int) (node : TreeNode) :
    List OffsetIndi :=
  let famXOffset : Int :=
    if !horizontal && node.family.isSome then max (-(fv node)) 0 else 0
  let famYOffset : Int :=
    if horizontal && node.family.isSome then max (-(fh node)) 0 else 0
  let l1 : List OffsetIndi :=
    match node.indi with
    | some ind =>
      [{ indi := ind, generation := node.generation.getD 0,
         xOffset := famXOffset, yOffset := 0 }]
    | none => []
  let l2 : List OffsetIndi :=
    match node.spouse with
    | some sp =>
      [{ indi := sp, generation := node.generation.getD 0,
         xOffset :=
           if !horizontal && node.indi.isSome then
             ((node.indi.getD default).width.getD 0 : Int) + famXOffset
           else 0,
         yOffset :=
           if horizontal && node.indi.isSome then
             ((node.indi.getD default).height.getD 0 : Int) + famYOffset
           else 0 }]
    | none => []
  l1 ++ l2

/-! ## Family transform (`getFamTransform`, source lines 326-335) -/

/-- A JavaScript numeric value interpolated into the transform string:
either a number or `undefined`. -/
inductive JsVal where
  | num (n : Int)
  | undef
deriving DecidableEq, Repr

/-- Rendering of an optional dimension in the transform string. -/
def jsOfOpt : Option Nat → JsVal
  | some n => JsVal.num n
  | none => JsVal.undef

/-- Translation of `ColorfulRenderer.getFamTransform`.  The translate
string is represented by its coordinate pair; `none` models the thrown
`TypeError` when the source's `node.spouse!` non-null assertion is wrong
(no individual with a truthy dimension and no spouse at all).
`(node.indi && node.indi.width) || node.spouse!.width` falls through to
the spouse whenever the individual is absent or its dimension is 0 or
unset (JavaScript falsiness of `0`/`undefined`). -/
def getFamTransform (horizontal : Bool) (fv fh : TreeNode → Int)
    (node : TreeNode) : Option (JsVal × JsVal) :=
  if horizontal then
    let indiW : Option Nat :=
      match node.indi with
      | some i =>
        match i.width with
        | some w => if w == 0 then none else some w
        | none => none
      | none => none
    match indiW with
    | some w => some (JsVal.num w, JsVal.num (max (fh node) 0))
    | none =>
      match node.spouse with
      | some s => some (jsOfOpt s.width, JsVal.num (max (fh node) 0))
      | none => none
  else
    let indiH : Option Nat :=
      match node.indi with
      | some i =>
        match i.height with
        | some h => if h == 0 then none else some h
        | none => none
      | none => none
    match indiH with
    | some h => some (JsVal.num (max (fv node) 0), JsVal.num h)
    | none =>
      match node.spouse with
      | some s => some (JsVal.num (max (fv node) 0), jsOfOpt s.height)
      | none => none

/-! ## Transition helper (`transition`, source lines 315-324) -/

/-- What the `transition` helper returns: the selection itself, or a d3
transition on it carrying the fixed delay and duration. -/
inductive SelOrTransition (α : Type) where
  | sel (s : α)
  | tr (delayMs durationMs : Nat) (s : α)
deriving DecidableEq, Repr

/-- Translation of `ColorfulRenderer.transition`: with `animate` the
selection is wrapped in a transition with `ANIMATION_DELAY_MS` delay and
`ANIMATION_DURATION_MS` duration, otherwise it is returned unchanged. -/
def transitionHelper {α : Type} (animate : Bool) (s : α) : SelOrTransition α :=
  if animate then
    SelOrTransition.tr ANIMATION_DELAY_MS ANIMATION_DURATION_MS s
  else SelOrTransition.sel s

/-- d3 attribute-setting semantics on a selection-or-transition: on a
plain selection the new value applies synchronously and no transition is
pending; on a transition the old value stays current and a transition
with the given delay/duration is pending. -/
def setAttrOn {α : Type} : SelOrTransition α → (α → α) → α × Option (Nat × Nat)
  | SelOrTransition.sel s, f => (f s, none)
  | SelOrTransition.tr d dur s, _ => (s, some (d, dur))

/-! ## Person group construction/patching (`renderIndi`, source lines 337-461,
plus the group transform applied in `render`, lines 199-206).  The SVG
subtree of one `g.indi` group is modelled by a record of its elements'
contents and identities (`eid` fields witness element identity across
passes); constant cosmetic attributes (`rx`, classes, anchors, fixed text
positions) are not tracked. -/

/-- The background style attribute (line 368):
`'fill: ' + SEX_COLORS.get(getSex() || '') || ''`.  JavaScript operator
precedence makes this `('fill: ' + lookup) || ''`; when the lookup is
`undefined` the concatenation is the truthy string `"fill: undefined"`,
so the trailing `|| ''` never fires. -/
def backgroundStyle (sex : Option String) : String :=
  let looked := sexColorsGet (sex.getD "")
  let concatenated :=
    "fill: " ++
      (match looked with
       | some c => c
       | none => "undefined")
  if concatenated == "" then "" else concatenated

/-- An image element of a person box. -/
structure ImgEl where
  eid : Nat
  height : Nat
  href : String
deriving DecidableEq, Repr

/-- A rendered details line: centered lines get one text element,
left-aligned lines get a symbol element plus a text element. -/
inductive DetailEl where
  | centered (text : String)
  | flagged (symbol text : String)
deriving DecidableEq, Repr

/-- The SVG subtree of one person group. -/
structure IndiGroup where
  eid : Nat
  transform : Int × Int
  linkHref : Option String
  hasClick : Bool
  bgEid : Nat
  bgStyle : String
  bgWidth : Nat
  bgHeight : Nat
  clipEid : Nat
  clipWidth : Nat
  clipHeight : Nat
  firstNameEid : Nat
  lastNameEid : Nat
  firstNameText : String
  lastNameText : String
  detailEls : List DetailEl
  image : Option ImgEl
  borderEid : Nat
  borderWidth : Nat
  borderHeight : Nat
deriving DecidableEq, Repr

/-- The enter path of `renderIndi` for one person record, plus the group
transform set in `render`: every element is created, fresh element
identities are drawn from `base`. -/
def enterIndi (opts : RendererOptions) (base : Nat) (d : OffsetIndi) : IndiGroup :=
  let indi := (opts.data.getIndi d.indi.id).getD default
  let w := d.indi.width.getD 0
  let h := d.indi.height.getD 0
  let details := getIndiDetails indi
  { eid := base
    transform := (d.xOffset, d.yOffset)
    linkHref := opts.indiHrefFunc.map (fun f => f d.indi.id)
    hasClick := opts.indiCallback
    bgEid := base + 1
    bgStyle := backgroundStyle indi.sex
    bgWidth := w
    bgHeight := h
    clipEid := base + 2
    clipWidth := w
    clipHeight := h
    firstNameEid := base + 3
    lastNameEid := base + 4
    firstNameText := indi.firstName.getD ""
    lastNameText := indi.lastName.getD ""
    detailEls :=
      details.map (fun line =>
        if line.centered then DetailEl.centered line.text
        else DetailEl.flagged line.symbol line.text)
    image :=
      if jsTruthyStr indi.imageUrl then
        some { eid := base + 5, height := h, href := indi.imageUrl.getD "" }
      else none
    borderEid := base + 6
    borderWidth := w
    borderHeight := h }

/-- The update path of `renderIndi` for one persisting person record, plus
the group transform set in `render`: only the background, clip and border
rectangle sizes and the group transform are re-set (the attribute targets;
transition scheduling is modelled separately by `transitionHelper`). -/
def updateIndi (d : OffsetIndi) (g : IndiGroup) : IndiGroup :=
  let w := d.indi.width.getD 0
  let h := d.indi.height.getD 0
  { g with
    transform := (d.xOffset, d.yOffset)
    bgWidth := w
    bgHeight := h
    clipWidth := w
    clipHeight := h
    borderWidth := w
    borderHeight := h }

/-! ## Family group construction/patching (`renderFamily`, source lines
463-514, plus the family transform applied in `render`, lines 210-225). -/

/-- The SVG subtree of one family group; each details line contributes a
(symbol element, text element) pair. -/
structure FamGroup where
  eid : Nat
  transform : Option (JsVal × JsVal)
  linkHref : Option String
  hasClick : Bool
  boxEid : Nat
  boxWidth : Nat
  boxHeight : Nat
  detailEls : List (String × String)
deriving DecidableEq, Repr

/-- The enter path of `renderFamily` for one node with a family reference,
plus the family transform set in `render`. -/
def enterFam (opts : RendererOptions) (fv fh : TreeNode → Int) (base : Nat)
    (node : TreeNode) : FamGroup :=
  let famEntry := node.family.getD default
  let fam := (opts.data.getFam famEntry.id).getD default
  { eid := base
    transform := getFamTransform opts.horizontal fv fh node
    linkHref := opts.famHrefFunc.map (fun f => f famEntry.id)
    hasClick := opts.famCallback
    boxEid := base + 1
    boxWidth := famEntry.width.getD 0
    boxHeight := famEntry.height.getD 0
    detailEls := (getFamDetails opts fam).map (fun l => (l.symbol, l.text)) }

/-- The update path for a persisting family group: `render` re-sets the
group transform (line 222), and `renderFamily` never reads its `update`
selection, so no other attribute is touched. -/
def updateFam (opts : RendererOptions) (fv fh : TreeNode → Int)
    (node : TreeNode) (g : FamGroup) : FamGroup :=
  { g with transform := getFamTransform opts.horizontal fv fh node }

/-! ## Spec-side definitions

These follow the wording of the specification (§4.1 and the amended
claims) rather than the source, for comparison with the translations
above. -/

/-- Spec wording: left part of the lifespan line — the birth year if the
birth date is valid and exact, else the range's from-year, else `"?"`
when only the death date is valid. -/
def specLifespanLeft (indi : IndiDetails) : String :=
  if jsTruthyDate indi.birthDate then
    match (indi.birthDate.getD default).date with
    | some d => jsNumStr d.year
    | none =>
      jsNumStr
        ((((indi.birthDate.getD default).dateRange.getD default).fromDate.getD
          default).year)
  else "?"

/-- Spec wording: right part of the lifespan line — the death year
(exact, or the range's to-year) if the death date is valid, else empty. -/
def specLifespanRight (indi : IndiDetails) : String :=
  if jsTruthyDate indi.deathDate then
    match (indi.deathDate.getD default).date with
    | some d => jsNumStr d.year
    | none =>
      jsNumStr
        ((((indi.deathDate.getD default).dateRange.getD default).toDate.getD
          default).year)
  else ""

/-- Spec wording: place line — birth place if present (nonempty), else
death place if present. -/
def specPlaceLines (indi : IndiDetails) : List DetailsLine :=
  if jsTruthyStr indi.birthPlace then
    [{ symbol := "", centered := true, text := indi.birthPlace.getD "" }]
  else if jsTruthyStr indi.deathPlace then
    [{ symbol := "", centered := true, text := indi.deathPlace.getD "" }]
  else []

/-- Spec wording of the individual's details list: a lifespan line with
text `"<left> - <right>"` included iff a valid birth or death date
exists, followed by the place line. -/
def specIndiDetails (indi : IndiDetails) : List DetailsLine :=
  (if jsTruthyDate indi.birthDate || jsTruthyDate indi.deathDate then
    [{ symbol := "", centered := true,
       text := (specLifespanLeft indi ++ " - ") ++ specLifespanRight indi }]
   else []) ++ specPlaceLines indi

/-- Sets the union glyph on the first line of a list. -/
def markFirstUnion : List DetailsLine → List DetailsLine
  | x :: rest => { x with symbol := "⚭" } :: rest
  | [] => []

/-- Amended-claim wording of the family's details list: when the family
has an exact marriage date that formats to a nonempty string, or a
nonempty marriage place, the lines appear in order (date line, then
place line) and the first line carries the union glyph; otherwise the
list is empty. -/
def specFamDetails (opts : RendererOptions) (fam : FamDetails) : List DetailsLine :=
  if famDateTruthy opts fam || famPlaceTruthy fam then
    markFirstUnion
      ((if famDateTruthy opts fam then
          [{ symbol := "", centered := false,
             text :=
               match fam.marriageDate with
               | some dr =>
                 match dr.date with
                 | some d => opts.formatDate d
                 | none => ""
               | none => "" }]
        else []) ++
       (if famPlaceTruthy fam then
          [{ symbol := "", centered := false,
             text := fam.marriagePlace.getD "" }]
        else []))
  else []

/-! ## Concrete fixtures -/

/-- An individual with only a birth year 1900. -/
def indi1900 : IndiDetails :=
  { birthDate := some { date := some { year := some 1900 }, dateRange := none } }

/-- An individual with only a death year 1950. -/
def indi1950 : IndiDetails :=
  { deathDate := some { date := some { year := some 1950 }, dateRange := none } }

/-- A data provider resolving `"I1"` to `indi1900` and nothing else. -/
def dataC4 : DataProvider :=
  { getIndi := fun id => if id == "I1" then some indi1900 else none
    getFam := fun _ => none }

/-- An options record with an empty data provider. -/
def optsEmpty : RendererOptions :=
  { data := { getIndi := fun _ => none, getFam := fun _ => none } }

/-- A family whose marriage date is a range only (no exact date part)
and that has no marriage place. -/
def famRangeOnly : FamDetails :=
  { marriageDate :=
      some { date := none,
             dateRange :=
               some { fromDate := some { year := some 1900 }, toDate := none } } }

/-- The static (non-transform) part of a family group. -/
def famStatic (g : FamGroup) :
    Nat × Nat × Nat × Nat × List (String × String) × Option String × Bool :=
  (g.eid, g.boxEid, g.boxWidth, g.boxHeight, g.detailEls, g.linkHref, g.hasClick)

/-- The content-and-identity part of a person group: everything except
the background/clip/border sizes and the group transform. -/
def indiStatic (g : IndiGroup) :
    Nat × Nat × Nat × Nat × Nat × Nat × String × String × String ×
      List DetailEl × Option ImgEl × Option String × Bool :=
  (g.eid, g.bgEid, g.clipEid, g.firstNameEid, g.lastNameEid, g.borderEid,
   g.bgStyle, g.firstNameText, g.lastNameText, g.detailEls, g.image,
   g.linkHref, g.hasClick)

/-! ## Claim theorems -/

/-- A node with primary individual, spouse and family, used at the
failing input of claim C1. -/
def nodeC1 : TreeNode :=
  { id := "n1"
    indi := some { id := "i1", width := some 40, height := some 30 }
    spouse := some { id := "s1", width := some 50, height := some 28 }
    family := some { id := "f1", width := some 100, height := some 80 }
    generation := some 1 }

/-- Claim C1, evaluated at the failing input: in horizontal orientation
with a family whose raw offset is −5, the primary individual's per-entry
offset is (0, 0) — the code hardcodes `yOffset: 0` for the primary — not
the (0, max(0, −familyOffset)) = (0, 5) the claim states; the computed
`famYOffset` is applied only to the spouse (30 + 5 = 35). -/
theorem c1_horizontal_primary_offset_unshifted :
    indiOffsets true (fun _ => -5) (fun _ => -5) nodeC1 =
      [{ indi := { id := "i1", width := some 40, height := some 30 },
         generation := 1, xOffset := 0, yOffset := 0 },
       { indi := { id := "s1", width := some 50, height := some 28 },
         generation := 1, xOffset := 0, yOffset := 35 }]
    ∧ max (-(-5 : Int)) 0 = 5
    ∧ (0 : Int) ≠ 5 := by
  decide

/-- An options record whose family lookup always yields a family without
marriage information. -/
def optsC2 : RendererOptions :=
  { data := { getIndi := fun _ => none, getFam := fun _ => some {} } }

/-- A node whose family box is sized 15 × 10. -/
def nodeC2a : TreeNode :=
  { id := "n2"
    indi := some { id := "i2", width := some 40, height := some 30 }
    family := some { id := "f2", width := some 15, height := some 10 }
    generation := some 0 }

/-- The same node after the family's size grew to 30 × 20. -/
def nodeC2b : TreeNode :=
  { id := "n2"
    indi := some { id := "i2", width := some 40, height := some 30 }
    family := some { id := "f2", width := some 30, height := some 20 }
    generation := some 0 }

/-- Claim C2 as stated is false: after an update pass in which the
family's size changed from 15 × 10 to 30 × 20, the family rectangle's
width attribute still holds the enter-time 15, not the new 30 —
`renderFamily` sets the box rectangle's size on enter only and never
reads its update selection. -/
theorem c2_family_box_stale_after_resize :
    (updateFam optsC2 (fun _ => 0) (fun _ => 0) nodeC2b
        (enterFam optsC2 (fun _ => 0) (fun _ => 0) 0 nodeC2a)).boxWidth = 15
    ∧ ((nodeC2b.family.getD default).width.getD 0) = 30
    ∧ (15 : Nat) ≠ 30 := by
  decide

/-- Claim C2, amended: the family box rectangle is drawn on enter, sized
to the family's width and height; on update only the family group's
transform is re-set — `renderFamily` never touches the box rectangle (or
any other family element), so a persisting family keeps its enter-time
box size. -/
theorem c2_family_box_enter_only (opts : RendererOptions)
    (fv fh : TreeNode → Int) (base : Nat) (node : TreeNode) (g : FamGroup) :
    famStatic (updateFam opts fv fh node g) = famStatic g
    ∧ (updateFam opts fv fh node g).transform =
        getFamTransform opts.horizontal fv fh node
    ∧ (enterFam opts fv fh base node).boxWidth =
        (node.family.getD default).width.getD 0
    ∧ (enterFam opts fv fh base node).boxHeight =
        (node.family.getD default).height.getD 0 :=
  ⟨rfl, rfl, rfl, rfl⟩

/-- Claim C3, evaluated on the code: entering persons with sex `'F'` /
`'M'` get the looked-up fill, but an absent or unrecognized sex yields
the style string `"fill: undefined"` — not the empty style the claim
states — because `'fill: ' + SEX_COLORS.get(...) || ''` concatenates
before the `||` applies, and `"fill: undefined"` is truthy. -/
theorem c3_sex_color_fill_undefined :
    backgroundStyle (some "F") = "fill: #fcb7bd"
    ∧ backgroundStyle (some "M") = "fill: #b1e2e2"
    ∧ backgroundStyle none = "fill: undefined"
    ∧ backgroundStyle (some "U") = "fill: undefined"
    ∧ "fill: undefined" ≠ ""
    ∧ (enterIndi optsEmpty 0
        { indi := { id := "p", width := some 10, height := some 10 },
          generation := 0, xOffset := 0, yOffset := 0 }).bgStyle =
        "fill: undefined" := by
  decide

/-- Claim C4 as stated is false on the example: an individual with only
birth year 1900 yields the lifespan text `"1900 - "` (the `" - "`
separator is appended before the empty right part, leaving a trailing
space), not the claimed `"1900 -"`. -/
theorem c4_lifespan_text_trailing_space :
    getIndiDetails indi1900 =
      [{ symbol := "", centered := true, text := "1900 - " }]
    ∧ "1900 - " ≠ "1900 -" := by
  decide

/-- Claim C4, amended (trailing space in the example): the details list
contains a lifespan line iff a valid birth or death date exists, with
text `"<left> - <right>"` per the spec's left/right rules (so an
individual with only birth year 1900 yields exactly one lifespan line
`"1900 - "`, and one with only death year 1950 yields `"? - 1950"`), and
the only-birth-1900 individual's preferred box height is
`INDI_MIN_HEIGHT + 14` for any text-measurement function `g`. -/
theorem c4_lifespan_line_content (indi : IndiDetails) (g : String → String → Nat) :
    getIndiDetails indi = specIndiDetails indi
    ∧ getIndiDetails indi1900 =
        [{ symbol := "", centered := true, text := "1900 - " }]
    ∧ (getPreferredIndiSize { data := dataC4, getLength := g } "I1").2 =
        INDI_MIN_HEIGHT + 14
    ∧ getIndiDetails indi1950 =
        [{ symbol := "", centered := true, text := "? - 1950" }] := by
  refine ⟨?_, by decide, by rfl, by decide⟩
  unfold getIndiDetails specIndiDetails specLifespanLeft specLifespanRight
    specPlaceLines
  cases hd : jsTruthyDate indi.deathDate <;>
    simp [hd, String.append_empty]

/-- Claim C5 as stated is false: a family whose marriage date is set but
consists of a range only (no exact date part) produces an empty details
list, so no line carries the union marker, although "a marriage date is
set". -/
theorem c5_range_only_marriage_no_union_line :
    famRangeOnly.marriageDate.isSome = true
    ∧ (getFamDetails optsEmpty famRangeOnly).countP
        (fun l => l.symbol == "⚭") = 0
    ∧ getFamDetails optsEmpty famRangeOnly = [] := by
  decide

/-- Claim C5, amended: when the family has an exact marriage date that
formats to a nonempty string, or a nonempty marriage place, the details
list has its lines in order (date line, then place line) and exactly one
line — the first — carries the union marker ⚭; when it has neither, the
details list is empty and the preferred family size is the minimum
`FAM_MIN_WIDTH × FAM_MIN_HEIGHT` = 15 × 10. -/
theorem c5_family_details_shape (opts : RendererOptions) (fam : FamDetails) :
    getFamDetails opts fam = specFamDetails opts fam
    ∧ (getFamDetails opts fam).countP (fun l => l.symbol == "⚭") =
        (if famDateTruthy opts fam || famPlaceTruthy fam then 1 else 0)
    ∧ (famDateTruthy opts fam = false → famPlaceTruthy fam = false →
        ∀ id, opts.data.getFam id = some fam →
          getPreferredFamSize opts id = (FAM_MIN_WIDTH, FAM_MIN_HEIGHT)) := by
  refine ⟨?_, ?_, ?_⟩
  · cases hdt : famDateTruthy opts fam <;> cases hpt : famPlaceTruthy fam <;>
      simp [getFamDetails, specFamDetails, markFirstUnion, hdt, hpt]
  · cases hdt : famDateTruthy opts fam <;> cases hpt : famPlaceTruthy fam <;>
      simp [getFamDetails, markFirstUnion, hdt, hpt, List.countP_cons]
  · intro h1 h2 id hid
    simp [getPreferredFamSize, hid, getFamDetails, h1, h2, d3max,
      FAM_MIN_WIDTH, FAM_MIN_HEIGHT]

/-- An options record whose family lookup yields a family with neither
marriage date nor marriage place. -/
def optsC5 : RendererOptions :=
  { data := { getIndi := fun _ => none, getFam := fun _ => some {} } }

/-- Witness for the amended claim C5 at a concrete family with no
marriage information: the preferred size is the 15 × 10 minimum. -/
theorem c5_family_details_shape_witness :
    getPreferredFamSize optsC5 "F1" = (FAM_MIN_WIDTH, FAM_MIN_HEIGHT)
    ∧ getFamDetails optsC5 {} = specFamDetails optsC5 {} :=
  ⟨(c5_family_details_shape optsC5 {}).2.2 rfl rfl "F1" rfl,
   (c5_family_details_shape optsC5 {}).1⟩

/-- Claim C6: on the person update path only the background, clip and
border rectangle sizes and the group transform are re-set to the new
values; element identities, name texts, details lines, the image, the
background style and the hyperlink/click wiring are untouched, and
re-rendering the data used at enter is a no-op. -/
theorem c6_update_preserves_content (opts : RendererOptions) (base : Nat)
    (d : OffsetIndi) (g : IndiGroup) :
    indiStatic (updateIndi d g) = indiStatic g
    ∧ (updateIndi d g).transform = (d.xOffset, d.yOffset)
    ∧ (updateIndi d g).bgWidth = d.indi.width.getD 0
    ∧ (updateIndi d g).bgHeight = d.indi.height.getD 0
    ∧ (updateIndi d g).clipWidth = d.indi.width.getD 0
    ∧ (updateIndi d g).clipHeight = d.indi.height.getD 0
    ∧ (updateIndi d g).borderWidth = d.indi.width.getD 0
    ∧ (updateIndi d g).borderHeight = d.indi.height.getD 0
    ∧ updateIndi d (enterIndi opts base d) = enterIndi opts base d :=
  ⟨rfl, rfl, rfl, rfl, rfl, rfl, rfl, rfl, rfl⟩

/-- Claim C7: the preferred individual and family sizes are identical
under any two settings of the `horizontal` option; in vertical
orientation every per-entry offset is purely horizontal (y component 0),
in horizontal orientation purely vertical (x component 0); and the family
transform's clamped family-offset component sits on the y axis in
horizontal orientation and on the x axis in vertical orientation. -/
theorem c7_orientation_noninterference (opts : RendererOptions) (b1 b2 : Bool)
    (id : String) (fv fh : TreeNode → Int) (node : TreeNode) :
    getPreferredIndiSize { opts with horizontal := b1 } id =
      getPreferredIndiSize { opts with horizontal := b2 } id
    ∧ getPreferredFamSize { opts with horizontal := b1 } id =
      getPreferredFamSize { opts with horizontal := b2 } id
    ∧ (indiOffsets false fv fh node).all (fun e => e.yOffset == 0) = true
    ∧ (indiOffsets true fv fh node).all (fun e => e.xOffset == 0) = true
    ∧ (getFamTransform true fv fh node).all
        (fun p => p.2 == JsVal.num (max (fh node) 0)) = true
    ∧ (getFamTransform false fv fh node).all
        (fun p => p.1 == JsVal.num (max (fv node) 0)) = true := by
  refine ⟨rfl, rfl, ?_, ?_, ?_, ?_⟩
  · cases hni : node.indi <;> cases hns : node.spouse <;>
      simp [indiOffsets, hni, hns]
  · cases hni : node.indi <;> cases hns : node.spouse <;>
      simp [indiOffsets, hni, hns]
  · rcases hni : node.indi with _ | i
    · cases hns : node.spouse <;> simp [getFamTransform, hni, hns]
    · rcases hiw : i.width with _ | w
      · cases hns : node.spouse <;> simp [getFamTransform, hni, hiw, hns]
      · rcases hns : node.spouse with _ | s <;> rcases hw : w == 0 <;>
          simp [getFamTransform, hni, hiw, hns, hw]
  · rcases hni : node.indi with _ | i
    · cases hns : node.spouse <;> simp [getFamTransform, hni, hns]
    · rcases hih : i.height with _ | h
      · cases hns : node.spouse <;> simp [getFamTransform, hni, hih, hns]
      · rcases hns : node.spouse with _ | s <;> rcases hw : h == 0 <;>
          simp [getFamTransform, hni, hih, hns, hw]

/-- Claim C8: with `animate` off the transition helper returns the
selection unchanged, so an attribute set through it applies synchronously
with no pending transition; with `animate` on it returns a transition
carrying the fixed 200 ms delay and 500 ms duration, and the attribute is
pending behind that transition. -/
theorem c8_transition_modes (α : Type) (s : α) (f : α → α) :
    transitionHelper false s = SelOrTransition.sel s
    ∧ setAttrOn (transitionHelper false s) f = (f s, none)
    ∧ transitionHelper true s = SelOrTransition.tr 200 500 s
    ∧ setAttrOn (transitionHelper true s) f = (s, some (200, 500))
    ∧ ANIMATION_DELAY_MS = 200 ∧ ANIMATION_DURATION_MS = 500 :=
  ⟨rfl, rfl, rfl, rfl, rfl, rfl⟩

/-- Claim C9: a layout node with a spouse but no primary individual
yields exactly one per-person record — the spouse — with offset (0, 0)
in either orientation: neither the main-axis shift nor the family
cross-axis offset is applied. -/
theorem c9_spouse_only_zero_offset (horizontal : Bool)
    (fv fh : TreeNode → Int) (node : TreeNode) (sp : TreeEntry)
    (h1 : node.indi = none) (h2 : node.spouse = some sp) :
    indiOffsets horizontal fv fh node =
      [{ indi := sp, generation := node.generation.getD 0,
         xOffset := 0, yOffset := 0 }] := by
  cases horizontal <;> simp [indiOffsets, h1, h2]

/-- A spouse-only node with a family, used to witness claim C9. -/
def nodeC9 : TreeNode :=
  { id := "n9"
    spouse := some { id := "s9", width := some 20, height := some 10 }
    family := some { id := "f9", width := some 5, height := some 5 }
    generation := some 2 }

/-- Witness for claim C9 at a concrete spouse-only node in horizontal
orientation with a negative raw family offset. -/
theorem c9_spouse_only_zero_offset_witness :
    indiOffsets true (fun _ => (-3 : Int)) (fun _ => (-3 : Int)) nodeC9 =
      [{ indi := { id := "s9", width := some 20, height := some 10 },
         generation := 2, xOffset := 0, yOffset := 0 }] :=
  c9_spouse_only_zero_offset true (fun _ => (-3 : Int)) (fun _ => (-3 : Int))
    nodeC9 { id := "s9", width := some 20, height := some 10 } rfl rfl

/-- Claim C10: `getFamTransform` anchors the family box at the spouse's
dimension whenever the individual is absent or its relevant dimension
(width when horizontal, height when vertical) is 0 or unset — and then
the `node.spouse!` dereference fails (result `none`) exactly when there
is no spouse; under the precondition that the node has an individual with
a positive relevant dimension or a spouse with that dimension set, the
transform is always produced. -/
theorem c10_fam_transform_spouse_fallback (horizontal : Bool)
    (fv fh : TreeNode → Int) (node : TreeNode) :
    (horizontal = true →
      (node.indi = none ∨
        ∃ i, node.indi = some i ∧ (i.width = none ∨ i.width = some 0)) →
      (∀ s, node.spouse = some s →
          getFamTransform horizontal fv fh node =
            some (jsOfOpt s.width, JsVal.num (max (fh node) 0)))
        ∧ (node.spouse = none → getFamTransform horizontal fv fh node = none))
    ∧ (horizontal = false →
      (node.indi = none ∨
        ∃ i, node.indi = some i ∧ (i.height = none ∨ i.height = some 0)) →
      (∀ s, node.spouse = some s →
          getFamTransform horizontal fv fh node =
            some (JsVal.num (max (fv node) 0), jsOfOpt s.height))
        ∧ (node.spouse = none → getFamTransform horizontal fv fh node = none))
    ∧ (((∃ i w, node.indi = some i ∧
            (if horizontal then i.width else i.height) = some w ∧ 0 < w)
        ∨ (∃ s, node.spouse = some s ∧
            (if horizontal then s.width else s.height).isSome = true))
      → (getFamTransform horizontal fv fh node).isSome = true) := by
  refine ⟨?_, ?_, ?_⟩
  · rintro rfl hcond
    rcases hcond with hni | ⟨i, hni, hw⟩
    · exact ⟨fun s hs => by simp [getFamTransform, hni, hs],
        fun hns => by simp [getFamTransform, hni, hns]⟩
    · rcases hw with hw | hw <;>
        exact ⟨fun s hs => by simp [getFamTransform, hni, hw, hs],
          fun hns => by simp [getFamTransform, hni, hw, hns]⟩
  · rintro rfl hcond
    rcases hcond with hni | ⟨i, hni, hw⟩
    · exact ⟨fun s hs => by simp [getFamTransform, hni, hs],
        fun hns => by simp [getFamTransform, hni, hns]⟩
    · rcases hw with hw | hw <;>
        exact ⟨fun s hs => by simp [getFamTransform, hni, hw, hs],
          fun hns => by simp [getFamTransform, hni, hw, hns]⟩
  · rintro (⟨i, w, hni, hdim, hpos⟩ | ⟨s, hs, hdim⟩)
    · have hw0 : w ≠ 0 := Nat.pos_iff_ne_zero.mp hpos
      cases horizontal <;> simp at hdim <;>
        simp [getFamTransform, hni, hdim, hw0]
    · cases horizontal <;>
        rcases hni : node.indi with _ | i
      · simp [getFamTransform, hni, hs]
      · rcases hih : i.height with _ | h
        · simp [getFamTransform, hni, hih, hs]
        · rcases hw : h == 0 <;> simp [getFamTransform, hni, hih, hs, hw]
      · simp [getFamTransform, hni, hs]
      · rcases hiw : i.width with _ | w
        · simp [getFamTransform, hni, hiw, hs]
        · rcases hw : w == 0 <;> simp [getFamTransform, hni, hiw, hs, hw]

/-- A spouse-only node used to witness claim C10. -/
def nodeC10 : TreeNode :=
  { id := "nA"
    spouse := some { id := "sA", width := some 20, height := some 12 }
    family := some { id := "fA", width := some 9, height := some 9 }
    generation := some 0 }

/-- Witness for claim C10: with no individual, the horizontal transform
anchors at the spouse's width and is produced (the non-null assertion
holds). -/
theorem c10_fam_transform_spouse_fallback_witness :
    getFamTransform true (fun _ => (0 : Int)) (fun _ => (-4 : Int)) nodeC10 =
      some (jsOfOpt (some 20), JsVal.num (max (-4 : Int) 0))
    ∧ (getFamTransform true (fun _ => (0 : Int)) (fun _ => (-4 : Int))
        nodeC10).isSome = true :=
  ⟨((c10_fam_transform_spouse_fallback true (fun _ => (0 : Int))
        (fun _ => (-4 : Int)) nodeC10).1 rfl (Or.inl rfl)).1
      { id := "sA", width := some 20, height := some 12 } rfl,
   (c10_fam_transform_spouse_fallback true (fun _ => (0 : Int))
        (fun _ => (-4 : Int)) nodeC10).2.2
      (Or.inr ⟨{ id := "sA", width := some 20, height := some 12 }, rfl, rfl⟩)⟩

end Topola
